import Mathlib

/-!
# Verification of the ElevenLabs relay server (shallow embedding)

This file embeds the per-connection relay session of the repository
(the canonical v13/14 snapshot of the relay in `src/unnamed/part_000`,
together with the STT orchestrator `src/transcription/index.js`) as pure
Lean functions, and proves properties of the embedded code.

Modelling conventions:
* Each WebSocket handler becomes a pure step function
  `State → Input → State × List RelayAction`; the `RelayAction` list records, in
  statement order, the observable effects of the handler (messages sent
  to the client, to the OpenAI upstream, to the ElevenLabs upstream,
  socket operations, and the assignment of the `isReady` flag, which is
  recorded in the trace so that ordering claims about it can be stated).
* Console / diagnostic logging (`console.log`, `diagLog`) is not
  modelled: it has no effect on session state or on the three peers.
* Base64 payloads are modelled by their decoded byte sequences
  (`List Nat`); a JavaScript-falsy `data` field (absent or the empty
  string) is modelled as `none`.
* `process.hrtime()` values are pairs (seconds, nanoseconds) of naturals;
  `Date.now()` values are naturals (milliseconds).  Real arithmetic from
  the source (`hrtimeToMs`, elapsed-seconds computations, `toFixed(2)`)
  is carried out over `ℚ`.
* Network providers (`openaiProvider.transcribe`,
  `elevenlabsProvider.transcribe`) are opaque outbound calls; the
  orchestrator is modelled as a function of the two providers' outcomes.
-/

/-- Transcription pipeline phases (`transcriptionState.status`). -/
inductive TransStatus
  | idle
  | recording
  | processing
  deriving DecidableEq, Repr

/-- `transcriptionState` of the relay (part_000, lines 619–627).
`audioChunks` holds the decoded byte chunks; `totalBytes` the running
total; `startTime` the `Date.now()` at `audio.start`. -/
structure TranscriptionState where
  status : TransStatus
  audioChunks : List (List Nat)
  totalBytes : Nat
  startTime : Option Nat
  format : Option String
  sampleRate : Option Nat
  encoding : Option String
  deriving DecidableEq, Repr

/-- The state installed by `resetTranscriptionState` (lines 632–643),
which is also the initial transcription state. -/
def resetTranscriptionState : TranscriptionState :=
  { status := .idle
    audioChunks := []
    totalBytes := 0
    startTime := none
    format := none
    sampleRate := none
    encoding := none }

/-- An hrtime value: (seconds, nanoseconds), as returned by
`process.hrtime()`. -/
abbrev Hrtime := Nat × Nat

/-- `hrtimeToMs` (lines 876–878). -/
def hrtimeToMs (t : Hrtime) : ℚ :=
  (t.1 : ℚ) * 1000 + (t.2 : ℚ) / 1000000

/-- One completed latency measurement (the record pushed by
`logLatencyReport`, lines 898–904; the wall-clock `timestamp` field is
not modelled). -/
structure Measurement where
  t1ToT2 : ℚ
  t2ToT3 : ℚ
  total : ℚ
  deriving DecidableEq, Repr

/-- `latencyMetrics` (lines 867–874). -/
structure LatencyMetrics where
  t1SpeechStopped : Option Hrtime
  t2FirstTextDelta : Option Hrtime
  t3FirstAudioDelta : Option Hrtime
  isFirstTextDelta : Bool
  isFirstAudioDelta : Bool
  measurements : List Measurement
  deriving DecidableEq, Repr

/-- Initial latency metrics. -/
def initialLatencyMetrics : LatencyMetrics :=
  { t1SpeechStopped := none
    t2FirstTextDelta := none
    t3FirstAudioDelta := none
    isFirstTextDelta := true
    isFirstAudioDelta := true
    measurements := [] }

/-- `resetLatencyTracking` (lines 880–886): clears the three timestamps
and the first-delta flags, keeps `measurements`. -/
def resetLatencyTracking (lm : LatencyMetrics) : LatencyMetrics :=
  { lm with
    t1SpeechStopped := none
    t2FirstTextDelta := none
    t3FirstAudioDelta := none
    isFirstTextDelta := true
    isFirstAudioDelta := true }

/-- `x.toFixed(2)` followed by `parseFloat`: rounding to two decimal
places (exact on the integral values used in the claims). -/
def toFixed2 (q : ℚ) : ℚ :=
  ((round (q * 100) : ℤ) : ℚ) / 100

/-- `logLatencyReport` (lines 888–920): when all three timestamps are
set, computes the three interval metrics and pushes the measurement.
The console report prints exactly the pushed values. -/
def logLatencyReport (lm : LatencyMetrics) : LatencyMetrics :=
  match lm.t1SpeechStopped, lm.t2FirstTextDelta, lm.t3FirstAudioDelta with
  | some t1, some t2, some t3 =>
      let t1Ms := hrtimeToMs t1
      let t2Ms := hrtimeToMs t2
      let t3Ms := hrtimeToMs t3
      let m : Measurement :=
        { t1ToT2 := toFixed2 (t2Ms - t1Ms)
          t2ToT3 := toFixed2 (t3Ms - t2Ms)
          total := toFixed2 (t3Ms - t1Ms) }
      { lm with measurements := lm.measurements ++ [m] }
  | _, _, _ => lm

/-- Messages the relay sends to the client socket. -/
inductive ClientOut
  | transcriptError (code msg : String)
  | transcriptFinal (text : String) (durationMs : Nat) (provider : String) (failover : Bool)
  | audioStarted
  | sessionCreatedAck (sessionId : String)
  | sessionUpdatedAck
  | ttsStart (responseId : Option String)
  | audioDelta (responseId : Option String) (delta : String) (encoding : String)
  | audioDone (responseId : Option String)
  | textDelta (responseId : Option String) (delta : String)
  | relayError (message details : String)
  | raw (s : String)
  deriving DecidableEq, Repr

/-- Messages the relay sends to the OpenAI realtime upstream.
`sessionUpdate` is the one-time session configuration (persona,
turn-detection thresholds, transcription model — opaque constants);
`responseCreate` is the turn-creation request. -/
inductive UpstreamOut
  | sessionUpdate
  | responseCreate
  | raw (s : String)
  deriving DecidableEq, Repr

/-- Messages the relay sends to the ElevenLabs synthesis upstream.
`init` is the fixed voice-settings initialisation message (text `" "`,
voice settings, api key — opaque constants). -/
inductive ElevenOut
  | init
  | text (s : String)
  deriving DecidableEq, Repr

/-- Observable effects of one handler invocation, in statement order. -/
inductive RelayAction
  | sendClient (m : ClientOut)
  | sendOpenai (m : UpstreamOut)
  | sendEleven (m : ElevenOut)
  | assignReady (b : Bool)
  | connectEleven
  | closeEleven
  | scheduleElevenReconnect (delayMs : Nat)
  | invokeSTT (audio : List Nat) (format : Option String)
  deriving DecidableEq, Repr

/-- Does the action forward anything to the conversational (OpenAI)
upstream? -/
def RelayAction.sendsUpstream : RelayAction → Bool
  | .sendOpenai _ => true
  | _ => false

/-- Is the action the turn-creation request `response.create`? -/
def RelayAction.isResponseCreate : RelayAction → Bool
  | .sendOpenai .responseCreate => true
  | _ => false

/-- Is the action an invocation of the STT orchestrator? -/
def RelayAction.isInvokeSTT : RelayAction → Bool
  | .invokeSTT _ _ => true
  | _ => false

/-- Per-connection session state: the `let` declarations of the
connection handler (lines 608–627) plus the socket readiness bits the
handlers test (`readyState === WebSocket.OPEN` on each socket). -/
structure SessionState where
  openaiConnected : Bool
  elevenLabsConnected : Bool
  /-- `openaiWs.readyState === WebSocket.OPEN` -/
  openaiReady : Bool
  /-- `elevenLabsWs && elevenLabsWs.readyState === WebSocket.OPEN` -/
  elevenLabsReady : Bool
  /-- `clientWs.readyState === WebSocket.OPEN` -/
  clientOpen : Bool
  currentResponseId : Option String
  textBuffer : String
  isResponsePending : Bool
  isReady : Bool
  transcription : TranscriptionState
  latency : LatencyMetrics
  deriving DecidableEq, Repr

/-- Session state at the top of the connection handler. -/
def initialSessionState : SessionState :=
  { openaiConnected := false
    elevenLabsConnected := false
    openaiReady := false
    elevenLabsReady := false
    clientOpen := true
    currentResponseId := none
    textBuffer := ""
    isResponsePending := false
    isReady := false
    transcription := resetTranscriptionState
    latency := initialLatencyMetrics }

/-- Server configuration read from the environment (lines 568–572). -/
structure RelayConfig where
  transcriptionEnabled : Bool
  maxAudioBytes : Nat
  maxAudioSeconds : Nat
  deriving DecidableEq, Repr

/-- JavaScript `a || d` for an optional string field (absent and the
empty string are falsy). -/
def jsOrStr (a : Option String) (d : String) : String :=
  match a with
  | some s => if s = "" then d else s
  | none => d

/-- JavaScript `a || b` where both sides are nullable strings. -/
def jsOrOpt (a b : Option String) : Option String :=
  match a with
  | some s => if s = "" then b else some s
  | none => b

/-- JavaScript `a || d` for an optional numeric field (0 is falsy). -/
def jsOrNat (a : Option Nat) (d : Nat) : Nat :=
  match a with
  | some n => if n = 0 then d else n
  | none => d

/-- `sendTranscriptError` (lines 648–661): the client message it sends
when the client socket is open (the `conn_id` diagnostic field and the
log line are not modelled). -/
def sendTranscriptError (st : SessionState) (code msg : String) : List RelayAction :=
  if st.clientOpen then [.sendClient (.transcriptError code msg)] else []

/-- Elapsed seconds since `startTime`, as computed by
`(Date.now() - transcriptionState.startTime) / 1000` (a `null`
`startTime` coerces to 0). -/
def elapsedSeconds (startTime : Option Nat) (now : Nat) : ℚ :=
  ((now : ℚ) - ((startTime.getD 0 : Nat) : ℚ)) / 1000

/-- A parsed client JSON message: the `type` field plus the payload
fields the handlers read.  `data` holds the decoded bytes of the
base64 `data` field of `audio.chunk` (`none` when absent or falsy);
`raw` is the original message text, used for verbatim forwarding. -/
structure ClientMsg where
  type : String
  format : Option String
  sampleRate : Option Nat
  encoding : Option String
  data : Option (List Nat)
  raw : String
  deriving DecidableEq, Repr

/-- `handleAudioStart` (lines 754–783). -/
def handleAudioStart (cfg : RelayConfig) (st : SessionState) (msg : ClientMsg)
    (now : Nat) : SessionState × List RelayAction :=
  if ¬ cfg.transcriptionEnabled then
    (st, sendTranscriptError st "disabled" "Transcription is not enabled on this server")
  else if st.transcription.status ≠ .idle then
    (st, sendTranscriptError st "invalid_state"
      "audio.start received while already recording. Send audio.end first.")
  else
    let ts : TranscriptionState :=
      { status := .recording
        audioChunks := []
        totalBytes := 0
        startTime := some now
        format := some (jsOrStr msg.format "webm")
        sampleRate := some (jsOrNat msg.sampleRate 16000)
        encoding := some (jsOrStr msg.encoding "opus") }
    ({ st with transcription := ts },
     if st.clientOpen then [.sendClient .audioStarted] else [])

/-- `handleAudioChunk` (lines 788–831). -/
def handleAudioChunk (cfg : RelayConfig) (st : SessionState) (msg : ClientMsg)
    (now : Nat) : SessionState × List RelayAction :=
  if ¬ cfg.transcriptionEnabled then
    (st, sendTranscriptError st "disabled" "Transcription is not enabled")
  else if st.transcription.status ≠ .recording then
    (st, sendTranscriptError st "invalid_state" "audio.chunk received without audio.start")
  else
    match msg.data with
    | none =>
        (st, sendTranscriptError st "invalid_payload" "audio.chunk missing data field")
    | some chunk =>
        let newTotalBytes := st.transcription.totalBytes + chunk.length
        if newTotalBytes > cfg.maxAudioBytes then
          ({ st with transcription := resetTranscriptionState },
           sendTranscriptError st "audio_too_large"
             ("Audio exceeds " ++ toString cfg.maxAudioBytes ++ " byte limit"))
        else if elapsedSeconds st.transcription.startTime now > (cfg.maxAudioSeconds : ℚ) then
          ({ st with transcription := resetTranscriptionState },
           sendTranscriptError st "audio_too_long"
             ("Audio exceeds " ++ toString cfg.maxAudioSeconds ++ " second limit"))
        else
          ({ st with transcription :=
              { st.transcription with
                audioChunks := st.transcription.audioChunks ++ [chunk]
                totalBytes := newTotalBytes } }, [])

/-- `processTranscription` (lines 693–749), up to the provider call: the
empty-buffer branch emits `no_audio` and resets; otherwise the chunks
are concatenated and the STT orchestrator is invoked (an outbound
network call, recorded as an `invokeSTT` action). -/
def processTranscription (st : SessionState) : SessionState × List RelayAction :=
  if st.transcription.audioChunks = [] then
    ({ st with transcription := resetTranscriptionState },
     sendTranscriptError st "no_audio" "No audio data received")
  else
    ({ st with transcription := { st.transcription with status := .processing } },
     [.invokeSTT st.transcription.audioChunks.flatten st.transcription.format])

/-- `handleAudioEnd` (lines 836–863). -/
def handleAudioEnd (cfg : RelayConfig) (st : SessionState) (now : Nat) :
    SessionState × List RelayAction :=
  if ¬ cfg.transcriptionEnabled then
    (st, sendTranscriptError st "disabled" "Transcription is not enabled")
  else if st.transcription.status ≠ .recording then
    (st, sendTranscriptError st "invalid_state" "audio.end received without audio.start")
  else if elapsedSeconds st.transcription.startTime now > (cfg.maxAudioSeconds : ℚ) then
    ({ st with transcription := resetTranscriptionState },
     sendTranscriptError st "audio_too_long"
       ("Audio exceeds " ++ toString cfg.maxAudioSeconds ++ " second limit"))
  else
    processTranscription st

/-- `sendTextToElevenLabs` (lines 1020–1033): when the synthesis link is
not connected/open, the text is appended to `textBuffer`; otherwise it
is sent to the synthesis upstream. -/
def sendTextToElevenLabs (st : SessionState) (text : String) :
    SessionState × List RelayAction :=
  if ¬ (st.elevenLabsConnected ∧ st.elevenLabsReady) then
    ({ st with textBuffer := st.textBuffer ++ text }, [])
  else
    (st, [.sendEleven (.text text)])

/-- `flushElevenLabs` (lines 1035–1041): sends the end-of-text marker
(empty string) when connected. -/
def flushElevenLabs (st : SessionState) : List RelayAction :=
  if st.elevenLabsConnected ∧ st.elevenLabsReady then [.sendEleven (.text "")] else []

/-- The `elevenLabsWs.on('open')` handler (lines 931–950): sets the
connected flag (the socket is now OPEN) and sends the fixed
initialisation message — nothing else. -/
def elevenLabsOpenStep (st : SessionState) : SessionState × List RelayAction :=
  ({ st with elevenLabsConnected := true, elevenLabsReady := true },
   [.sendEleven .init])

/-- A parsed message from the OpenAI realtime upstream: the `type`
field plus the fields the handler reads (`message.session?.id`,
`message.delta`, `message.text`, `message.response_id`); `raw` is the
original message text (`data.toString()`), used for verbatim
forwarding. -/
structure OpenAIMsg where
  type : String
  sessionId : Option String
  delta : Option String
  text : Option String
  responseId : Option String
  raw : String
  deriving DecidableEq, Repr

/-- The three text-bearing delta event types intercepted at
lines 1239–1241. -/
def isTextDeltaType (t : String) : Bool :=
  t = "response.text.delta" || t = "response.audio_transcript.delta" ||
    t = "response.output_text.delta"

/-- The completion event types that trigger `flushElevenLabs`
(lines 1270–1273). -/
def isDoneType (t : String) : Bool :=
  t = "response.text.done" || t = "response.audio_transcript.done" ||
    t = "response.output_text.done" || t = "response.done"

/-- The `openaiWs.on('open')` handler (lines 1076–1080): records the
connection and waits for `session.created` — it sends nothing. -/
def openaiOpenStep (st : SessionState) : SessionState × List RelayAction :=
  ({ st with openaiConnected := true, openaiReady := true }, [])

/-- The `session.created` / `session.updated` / `error` chain of the
OpenAI message handler (lines 1147–1199).  On `session.created`:
`isReady = true`, sanitized acknowledgment (session id only) to the
client, then the one-time `session.update` configuration to the
upstream, then the ElevenLabs connection. -/
def sessionEventsStage (st : SessionState) (m : OpenAIMsg) :
    SessionState × List RelayAction :=
  if m.type = "session.created" then
    ({ st with isReady := true },
     [RelayAction.assignReady true]
       ++ (if st.clientOpen then
            [RelayAction.sendClient (.sessionCreatedAck (jsOrStr m.sessionId "unknown"))]
          else [])
       ++ [RelayAction.sendOpenai .sessionUpdate, RelayAction.connectEleven])
  else if m.type = "session.updated" then
    (st, if st.clientOpen then [RelayAction.sendClient .sessionUpdatedAck] else [])
  else (st, [])

/-- T1 recording and the turn trigger on
`input_audio_buffer.speech_stopped` (lines 1209–1230): resets latency
tracking, sets T1, and — unless a response is already pending — sets
`isResponsePending` and emits `response.create`. -/
def speechStoppedStage (m : OpenAIMsg) (now : Hrtime)
    (p : SessionState × List RelayAction) : SessionState × List RelayAction :=
  if m.type = "input_audio_buffer.speech_stopped" then
    let st2 := { p.1 with latency :=
      { resetLatencyTracking p.1.latency with t1SpeechStopped := some now } }
    if st2.isResponsePending then (st2, p.2)
    else ({ st2 with isResponsePending := true },
          p.2 ++ [RelayAction.sendOpenai .responseCreate])
  else p

/-- `isResponsePending` reset on `response.done` (lines 1233–1236). -/
def responseDoneStage (m : OpenAIMsg)
    (p : SessionState × List RelayAction) : SessionState × List RelayAction :=
  if m.type = "response.done" then
    ({ p.1 with isResponsePending := false }, p.2)
  else p

/-- Text-delta interception (lines 1239–1267): extracts the delta,
updates `currentResponseId`, records T2 on the first nonempty delta of
a turn, feeds the delta to the synthesis link, and sends the normalized
`response.text.delta` to the client; the raw event is not forwarded. -/
def textDeltaStage (m : OpenAIMsg) (now : Hrtime)
    (p : SessionState × List RelayAction) : SessionState × List RelayAction :=
  let textDelta := jsOrStr m.delta (jsOrStr m.text "")
  let st4 := { p.1 with currentResponseId := jsOrOpt m.responseId p.1.currentResponseId }
  let st5 :=
    if textDelta ≠ "" ∧ st4.latency.isFirstTextDelta then
      { st4 with latency :=
        { st4.latency with t2FirstTextDelta := some now, isFirstTextDelta := false } }
    else st4
  let p6 : SessionState × List RelayAction :=
    if textDelta ≠ "" then sendTextToElevenLabs st5 textDelta else (st5, [])
  let a7 :=
    if p6.1.clientOpen then
      [RelayAction.sendClient (.textDelta p6.1.currentResponseId textDelta)]
    else []
  (p6.1, p.2 ++ p6.2 ++ a7)

/-- Tail of the handler (lines 1270–1288): completion events flush the
synthesis link; native OpenAI audio events are suppressed; everything
else is forwarded verbatim to the client. -/
def tailForwardStage (m : OpenAIMsg)
    (p : SessionState × List RelayAction) : SessionState × List RelayAction :=
  let p4 : SessionState × List RelayAction :=
    if isDoneType m.type then (p.1, p.2 ++ flushElevenLabs p.1) else p
  if m.type = "response.audio.delta" ∨ m.type = "response.audio.done" then p4
  else
    (p4.1, p4.2 ++ (if p4.1.clientOpen then [RelayAction.sendClient (.raw m.raw)] else []))

/-- The `openaiWs.on('message')` handler (lines 1119–1293): the stages
correspond to the successive statement blocks of the handler, in source
order; the text-delta branch returns early. -/
def openaiMessageStep (st : SessionState) (m : OpenAIMsg) (now : Hrtime) :
    SessionState × List RelayAction :=
  let p3 := responseDoneStage m (speechStoppedStage m now (sessionEventsStage st m))
  if isTextDeltaType m.type then textDeltaStage m now p3
  else tailForwardStage m p3

/-- A message arriving on the ElevenLabs socket: either parsed JSON
(with the `audio` and `isFinal` fields the handler reads) or binary
data (the `catch` branch), carried as its base64 rendering. -/
inductive ElevenIn
  | json (audio : Option String) (isFinal : Bool)
  | binary (b64 : String)
  deriving DecidableEq, Repr

/-- The `elevenLabsWs.on('message')` handler (lines 952–1007).  A
JavaScript-truthy `audio` field is a nonempty string. -/
def elevenLabsMessageStep (st : SessionState) (m : ElevenIn) (now : Hrtime) :
    SessionState × List RelayAction :=
  match m with
  | .json audio isFinal =>
      let p1 : SessionState × List RelayAction :=
        match audio with
        | some a =>
            if a ≠ "" then
              let p2 : SessionState × List RelayAction :=
                if st.latency.isFirstAudioDelta then
                  let lm := logLatencyReport
                    { st.latency with t3FirstAudioDelta := some now, isFirstAudioDelta := false }
                  ({ st with latency := lm },
                   if st.clientOpen then
                     [RelayAction.sendClient (.ttsStart st.currentResponseId)]
                   else [])
                else (st, [])
              (p2.1, p2.2 ++
                (if p2.1.clientOpen then
                  [RelayAction.sendClient (.audioDelta p2.1.currentResponseId a "mp3")]
                 else []))
            else (st, [])
        | none => (st, [])
      let a3 :=
        if isFinal then
          (if p1.1.clientOpen then [RelayAction.sendClient (.audioDone p1.1.currentResponseId)] else [])
        else []
      (p1.1, p1.2 ++ a3)
  | .binary b64 =>
      (st,
       if st.clientOpen then
         [RelayAction.sendClient (.audioDelta st.currentResponseId b64 "mp3")]
       else [])

/-- A message arriving on the client socket: either parsed JSON or
non-JSON data (the `catch` branch of lines 1366–1371). -/
inductive ClientIn
  | parsed (m : ClientMsg)
  | unparseable (raw : String)
  deriving DecidableEq, Repr

/-- The `clientWs.on('message')` handler (lines 1319–1372): routes
`audio.*` to the transcription pipeline and `tts.stop` to the synthesis
link, applies the Auth-First guard, and otherwise forwards verbatim to
the conversational upstream. -/
def clientMessageStep (cfg : RelayConfig) (st : SessionState) (m : ClientIn)
    (now : Nat) : SessionState × List RelayAction :=
  match m with
  | .parsed msg =>
      if msg.type = "audio.start" then handleAudioStart cfg st msg now
      else if msg.type = "audio.chunk" then handleAudioChunk cfg st msg now
      else if msg.type = "audio.end" then handleAudioEnd cfg st now
      else if msg.type = "tts.stop" then
        -- lines 1341–1350: best-effort cancellation
        if st.elevenLabsReady then
          (st, [RelayAction.closeEleven, RelayAction.scheduleElevenReconnect 100])
        else (st, [])
      -- Auth-First guard (lines 1353–1357)
      else if ¬ st.isReady then (st, [])
      -- upstream-connectivity guard (lines 1359–1362)
      else if ¬ (st.openaiConnected ∧ st.openaiReady) then (st, [])
      else (st, [RelayAction.sendOpenai (.raw msg.raw)])
  | .unparseable raw =>
      if st.isReady ∧ st.openaiConnected ∧ st.openaiReady then
        (st, [RelayAction.sendOpenai (.raw raw)])
      else (st, [])

/-- Result of a transcription attempt (`src/transcription`): `text` and
`provider` from the provider, the `failover` tag and reason added by
the orchestrator. -/
structure STTResult where
  text : String
  provider : String
  failover : Bool
  failoverReason : Option String
  deriving DecidableEq, Repr

/-- A provider failure: an `Error` with the `status`/`provider`
properties the orchestrator reads (`status` is absent on non-HTTP
failures). -/
structure STTError where
  message : String
  status : Option Nat
  provider : Option String
  deriving DecidableEq, Repr

/-- Orchestrator configuration (`src/transcription/index.js`,
lines 19–21). -/
structure STTConfig where
  failoverOn429 : Bool
  failoverOn5xx : Bool
  force429Test : Bool
  deriving DecidableEq, Repr

/-- `shouldFailover` (`src/transcription/index.js`, lines 28–45).  In
JavaScript every comparison with an `undefined` status is false, so an
absent status never fails over. -/
def shouldFailover (cfg : STTConfig) (status : Option Nat) : Bool :=
  match status with
  | none => false
  | some s =>
      if s = 401 ∨ s = 403 then false
      else if s = 429 ∧ cfg.failoverOn429 then true
      else if 500 ≤ s ∧ s < 600 ∧ cfg.failoverOn5xx then true
      else false

/-- String interpolation of a possibly-absent status
(JavaScript prints `undefined`). -/
def statusStr : Option Nat → String
  | some n => toString n
  | none => "undefined"

/-- `transcribe` (`src/transcription/index.js`, lines 54–131), as a
function of the outcomes the two providers would return for this audio.
The second component records whether the secondary (ElevenLabs)
provider was invoked.  The combined error of the double-failure branch
keeps the fallback status, as in the source (the attached
`primaryError`/`fallbackError` objects are not modelled). -/
def transcribe (cfg : STTConfig) (primary secondary : Except STTError STTResult) :
    Except STTError STTResult × Bool :=
  if cfg.force429Test then
    match secondary with
    | .ok r => (.ok { r with failover := true, failoverReason := some "simulated_429" }, true)
    | .error e => (.error e, true)
  else
    match primary with
    | .ok r => (.ok r, false)
    | .error primaryError =>
        if ¬ shouldFailover cfg primaryError.status then (.error primaryError, false)
        else
          match secondary with
          | .ok r =>
              (.ok { r with failover := true,
                            failoverReason := some (statusStr primaryError.status) }, true)
          | .error fallbackError =>
              (.error
                { message := "Both providers failed. OpenAI: " ++ statusStr primaryError.status
                    ++ ", ElevenLabs: " ++ statusStr fallbackError.status
                  status := fallbackError.status
                  provider := none }, true)

/-- The continuation of `processTranscription` once the orchestrator
returns (lines 725–748): success emits `transcript.final`, failure is
classified into the fixed error vocabulary; both reset the pipeline. -/
def transcriptionResultStep (st : SessionState) (durationMs : Nat)
    (res : Except STTError STTResult) : SessionState × List RelayAction :=
  match res with
  | .ok r =>
      ({ st with transcription := resetTranscriptionState },
       if st.clientOpen then
         [RelayAction.sendClient (.transcriptFinal r.text durationMs r.provider r.failover)]
       else [])
  | .error e =>
      let errorCode :=
        match e.status with
        | some s =>
            if s = 429 then "rate_limited"
            else if s = 401 ∨ s = 403 then "auth_error"
            else if 500 ≤ s then "server_error"
            else "internal_error"
        | none => "internal_error"
      ({ st with transcription := resetTranscriptionState },
       sendTranscriptError st errorCode e.message)

/-- Process a sequence of upstream events (with their arrival times)
through the OpenAI message handler, accumulating the emitted actions. -/
def runOpenai : SessionState → List (OpenAIMsg × Hrtime) → SessionState × List RelayAction
  | st, [] => (st, [])
  | st, (m, t) :: rest =>
      let p := openaiMessageStep st m t
      let q := runOpenai p.1 rest
      (q.1, p.2 ++ q.2)

/-- Number of turn-creation requests (`response.create`) in a trace. -/
def countResponseCreate (acts : List RelayAction) : Nat :=
  (acts.filter RelayAction.isResponseCreate).length

/-- Process a sequence of `audio.chunk` payloads (with their arrival
times) through `handleAudioChunk`. -/
def runAudioChunks (cfg : RelayConfig) :
    SessionState → List (ClientMsg × Nat) → SessionState
  | st, [] => st
  | st, (m, t) :: rest => runAudioChunks cfg (handleAudioChunk cfg st m t).1 rest

/-- Total decoded size of a chunk buffer. -/
def sumChunkBytes (chunks : List (List Nat)) : Nat :=
  (chunks.map List.length).sum

/-- The byte-accounting invariant of `TranscriptionState`: the running
total equals the sum of the decoded lengths of the buffered (accepted)
chunks and never exceeds the configured cap. -/
def tsInvariant (cfg : RelayConfig) (ts : TranscriptionState) : Prop :=
  ts.totalBytes = sumChunkBytes ts.audioChunks ∧ ts.totalBytes ≤ cfg.maxAudioBytes

instance (cfg : RelayConfig) (ts : TranscriptionState) : Decidable (tsInvariant cfg ts) :=
  inferInstanceAs (Decidable (_ ∧ _))

section Claims

/-- A sample configuration used by concrete witnesses: transcription
enabled, 4-byte cap, 30-second cap. -/
def sampleCfg : RelayConfig :=
  { transcriptionEnabled := true, maxAudioBytes := 4, maxAudioSeconds := 30 }

/-- A sample session in the middle of a recording (two bytes buffered). -/
def sampleRecordingState : SessionState :=
  { initialSessionState with transcription :=
      { status := .recording
        audioChunks := [[1, 2]]
        totalBytes := 2
        startTime := some 0
        format := some "webm"
        sampleRate := some 16000
        encoding := some "opus" } }

/-- C1 (code bug): a text fragment arriving while the synthesis
connection is not open is appended to `textBuffer` (and not dropped),
but when the connection subsequently opens, the `open` handler sends
only the fixed initialisation message: the buffered fragment is never
flushed to the synthesis upstream — `textBuffer` is written and its
length logged, but its contents are never sent anywhere. -/
theorem c1_buffered_text_never_flushed_on_open :
    (sendTextToElevenLabs initialSessionState "Hello").1.textBuffer = "Hello"
    ∧ (sendTextToElevenLabs initialSessionState "Hello").2 = []
    ∧ (elevenLabsOpenStep (sendTextToElevenLabs initialSessionState "Hello").1).2
        = [RelayAction.sendEleven .init]
    ∧ (elevenLabsOpenStep (sendTextToElevenLabs initialSessionState "Hello").1).1.textBuffer
        = "Hello" := by
  decide

/-- C5: `audio.start` is rejected with the session state (hence buffers
and byte total) unchanged when the transcription feature is disabled
(`disabled`) or when the pipeline is not idle (`invalid_state`); in
particular `audio.start` while recording leaves the buffered chunks
unmodified. -/
theorem c5_audio_start_rejection (cfg : RelayConfig) (st : SessionState)
    (msg : ClientMsg) (now : Nat) :
    (cfg.transcriptionEnabled = false →
      handleAudioStart cfg st msg now =
        (st, sendTranscriptError st "disabled" "Transcription is not enabled on this server"))
    ∧ (cfg.transcriptionEnabled = true → st.transcription.status ≠ .idle →
      handleAudioStart cfg st msg now =
        (st, sendTranscriptError st "invalid_state"
          "audio.start received while already recording. Send audio.end first.")) := by
  constructor
  · intro h
    simp [handleAudioStart, h]
  · intro h h2
    simp [handleAudioStart, h, h2]

/-- Witness for C5 at a concrete input: feature enabled, state
recording — rejected with `invalid_state` and the state unchanged. -/
theorem c5_audio_start_rejection_witness :
    handleAudioStart sampleCfg sampleRecordingState
        { type := "audio.start", format := none, sampleRate := none,
          encoding := none, data := none, raw := "r" } 7 =
      (sampleRecordingState,
       sendTranscriptError sampleRecordingState "invalid_state"
         "audio.start received while already recording. Send audio.end first.") :=
  (c5_audio_start_rejection sampleCfg sampleRecordingState
      { type := "audio.start", format := none, sampleRate := none,
        encoding := none, data := none, raw := "r" } 7).2 rfl (by decide)

/-- C6: with the deterministic test mode off, a primary failure with
status 401 or 403 never invokes the secondary provider and propagates
unchanged; a primary failure with status 429 while the 429-failover
trigger is enabled invokes the secondary, and a successful secondary
result is returned tagged `failover = true`. -/
theorem c6_stt_failover_policy (cfg : STTConfig) (e : STTError) (r : STTResult)
    (secondary : Except STTError STTResult) (hforce : cfg.force429Test = false) :
    ((e.status = some 401 ∨ e.status = some 403) →
      transcribe cfg (.error e) secondary = (.error e, false))
    ∧ (e.status = some 429 → cfg.failoverOn429 = true →
      transcribe cfg (.error e) (.ok r) =
        (.ok { r with failover := true, failoverReason := some "429" }, true)) := by
  constructor
  · rintro (h | h) <;> simp [transcribe, hforce, shouldFailover, h]
  · intro h h2
    simp [transcribe, hforce, shouldFailover, h, h2, statusStr]
    rfl

/-- Witness for C6 at concrete inputs: the 401 case propagates the
primary error without touching the secondary. -/
theorem c6_stt_failover_policy_witness :
    transcribe { failoverOn429 := true, failoverOn5xx := false, force429Test := false }
        (.error { message := "OpenAI STT failed: 401", status := some 401, provider := some "openai" })
        (.ok { text := "hi", provider := "elevenlabs", failover := false, failoverReason := none }) =
      (.error { message := "OpenAI STT failed: 401", status := some 401, provider := some "openai" },
       false) :=
  (c6_stt_failover_policy
      { failoverOn429 := true, failoverOn5xx := false, force429Test := false }
      { message := "OpenAI STT failed: 401", status := some 401, provider := some "openai" }
      { text := "hi", provider := "elevenlabs", failover := false, failoverReason := none }
      (.ok { text := "hi", provider := "elevenlabs", failover := false, failoverReason := none })
      rfl).1 (Or.inl rfl)

/-- C9: a `tts.stop` received while the synthesis socket is not open is
a complete no-op: the session state (including `textBuffer` and the
transcription pipeline) is unchanged and no action — no close, no
delayed reconnect, no client message — is emitted. -/
theorem c9_tts_stop_noop_when_closed (cfg : RelayConfig) (st : SessionState)
    (m : ClientMsg) (now : Nat) (hm : m.type = "tts.stop")
    (h : st.elevenLabsReady = false) :
    clientMessageStep cfg st (.parsed m) now = (st, []) := by
  simp [clientMessageStep, hm, h]

/-- Witness for C9 at a concrete input. -/
theorem c9_tts_stop_noop_when_closed_witness :
    clientMessageStep sampleCfg initialSessionState
        (.parsed { type := "tts.stop", format := none, sampleRate := none,
                   encoding := none, data := none, raw := "r" }) 3 =
      (initialSessionState, []) :=
  c9_tts_stop_noop_when_closed sampleCfg initialSessionState
    { type := "tts.stop", format := none, sampleRate := none,
      encoding := none, data := none, raw := "r" } 3 rfl rfl

/-- C10: `audio.end` in the recording state with zero buffered chunks
(and within the time cap) emits `transcript.error` with code
`no_audio`, resets the pipeline to idle with buffers cleared, and never
invokes a transcription provider (the emitted trace contains no
`invokeSTT`). -/
theorem c10_audio_end_empty_no_audio (cfg : RelayConfig) (st : SessionState)
    (m : ClientMsg) (now : Nat) (hm : m.type = "audio.end")
    (hen : cfg.transcriptionEnabled = true)
    (hrec : st.transcription.status = .recording)
    (hempty : st.transcription.audioChunks = [])
    (htime : ¬ elapsedSeconds st.transcription.startTime now > (cfg.maxAudioSeconds : ℚ))
    (hopen : st.clientOpen = true) :
    clientMessageStep cfg st (.parsed m) now =
      ({ st with transcription := resetTranscriptionState },
       [RelayAction.sendClient (.transcriptError "no_audio" "No audio data received")]) := by
  simp [clientMessageStep, hm, handleAudioEnd, hen, hrec, htime, processTranscription,
    hempty, sendTranscriptError, hopen]

/-- Witness for C10 at a concrete input: recording with no chunks,
`audio.end` after 5 ms. -/
theorem c10_audio_end_empty_no_audio_witness :
    clientMessageStep sampleCfg
        { sampleRecordingState with transcription :=
            { sampleRecordingState.transcription with audioChunks := [], totalBytes := 0 } }
        (.parsed { type := "audio.end", format := none, sampleRate := none,
                   encoding := none, data := none, raw := "r" }) 5 =
      ({ sampleRecordingState with transcription := resetTranscriptionState },
       [RelayAction.sendClient (.transcriptError "no_audio" "No audio data received")]) :=
  c10_audio_end_empty_no_audio sampleCfg
    { sampleRecordingState with transcription :=
        { sampleRecordingState.transcription with audioChunks := [], totalBytes := 0 } }
    { type := "audio.end", format := none, sampleRate := none,
      encoding := none, data := none, raw := "r" } 5 rfl rfl rfl rfl
    (by norm_num [elapsedSeconds, sampleRecordingState, sampleCfg]) rfl

end Claims

/-- The `input_audio_buffer.speech_stopped` upstream event. -/
def c7SpeechStoppedMsg : OpenAIMsg :=
  { type := "input_audio_buffer.speech_stopped", sessionId := none, delta := none,
    text := none, responseId := none, raw := "e1" }

/-- A first text delta of the turn. -/
def c7TextDeltaMsg1 : OpenAIMsg :=
  { type := "response.text.delta", sessionId := none, delta := some "Hello",
    text := none, responseId := some "resp-1", raw := "e2" }

/-- A second text delta of the same turn. -/
def c7TextDeltaMsg2 : OpenAIMsg :=
  { type := "response.text.delta", sessionId := none, delta := some " sir.",
    text := none, responseId := some "resp-1", raw := "e3" }

/-- Session state after T1: speech stopped at t = 0 ms. -/
def c7AfterT1 : SessionState :=
  (openaiMessageStep initialSessionState c7SpeechStoppedMsg (0, 0)).1

/-- Session state after T2: first text delta at t = 120 ms. -/
def c7AfterT2 : SessionState :=
  (openaiMessageStep c7AfterT1 c7TextDeltaMsg1 (0, 120000000)).1

/-- Session state after a second text delta at t = 200 ms. -/
def c7AfterSecondDelta : SessionState :=
  (openaiMessageStep c7AfterT2 c7TextDeltaMsg2 (0, 200000000)).1

/-- Session state after T3: first synthesis audio at t = 340 ms. -/
def c7AfterT3 : SessionState :=
  (elevenLabsMessageStep c7AfterSecondDelta (.json (some "QUJD") false) (0, 340000000)).1

/-- C7: with T1 = 0 ms, T2 = 120 ms, T3 = 340 ms, the emitted latency
report records t1→t2 = 120, t2→t3 = 220 and t1→t3 = 340; and the second
text delta of the turn does not overwrite the first-recorded T2. -/
theorem c7_latency_report :
    c7AfterT2.latency.t2FirstTextDelta = some (0, 120000000)
    ∧ c7AfterSecondDelta.latency.t2FirstTextDelta = some (0, 120000000)
    ∧ c7AfterT3.latency.measurements =
        [{ t1ToT2 := 120, t2ToT3 := 220, total := 340 }] := by
  refine ⟨rfl, rfl, ?_⟩
  have h : c7AfterSecondDelta.latency =
      { t1SpeechStopped := some (0, 0)
        t2FirstTextDelta := some (0, 120000000)
        t3FirstAudioDelta := none
        isFirstTextDelta := false
        isFirstAudioDelta := true
        measurements := [] } := rfl
  show (elevenLabsMessageStep c7AfterSecondDelta (.json (some "QUJD") false) (0, 340000000)).1.latency.measurements = _
  simp only [elevenLabsMessageStep, h, logLatencyReport, hrtimeToMs]
  norm_num [toFixed2, round_eq]
  simp

/-- One `audio.chunk` step preserves the byte-accounting invariant. -/
theorem tsInvariant_handleAudioChunk (cfg : RelayConfig) (st : SessionState)
    (msg : ClientMsg) (now : Nat) (h : tsInvariant cfg st.transcription) :
    tsInvariant cfg ((handleAudioChunk cfg st msg now).1.transcription) := by
  obtain ⟨hsum, hle⟩ := h
  unfold handleAudioChunk
  cases hd : msg.data with
  | none => dsimp only; split_ifs <;> exact ⟨hsum, hle⟩
  | some chunk =>
      dsimp only
      split_ifs with h1 h2 h3 h4
      · exact ⟨hsum, hle⟩
      · exact ⟨rfl, Nat.zero_le _⟩
      · exact ⟨rfl, Nat.zero_le _⟩
      · constructor
        · show st.transcription.totalBytes + chunk.length =
            sumChunkBytes (st.transcription.audioChunks ++ [chunk])
          rw [hsum]
          simp [sumChunkBytes]
        · show st.transcription.totalBytes + chunk.length ≤ cfg.maxAudioBytes
          omega
      · exact ⟨hsum, hle⟩

/-- Any sequence of `audio.chunk` steps preserves the byte-accounting
invariant. -/
theorem tsInvariant_runAudioChunks (cfg : RelayConfig) :
    ∀ (inputs : List (ClientMsg × Nat)) (st : SessionState),
      tsInvariant cfg st.transcription →
      tsInvariant cfg (runAudioChunks cfg st inputs).transcription
  | [], _, h => h
  | (m, t) :: rest, st, h =>
      tsInvariant_runAudioChunks cfg rest _ (tsInvariant_handleAudioChunk cfg st m t h)

/-- C4: across any sequence of `audio.chunk` messages, `totalBytes`
always equals the sum of the decoded lengths of the accepted (buffered)
chunks and never exceeds the configured byte cap; and a chunk whose
acceptance would exceed the cap triggers an immediate reset to idle
(all buffers cleared) together with an `audio_too_large` error. -/
theorem c4_byte_accounting (cfg : RelayConfig) (st : SessionState)
    (h : tsInvariant cfg st.transcription) :
    (∀ inputs : List (ClientMsg × Nat),
        tsInvariant cfg (runAudioChunks cfg st inputs).transcription)
    ∧ (∀ (msg : ClientMsg) (now : Nat) (chunk : List Nat),
        st.transcription.status = .recording →
        cfg.transcriptionEnabled = true →
        msg.data = some chunk →
        st.transcription.totalBytes + chunk.length > cfg.maxAudioBytes →
        handleAudioChunk cfg st msg now =
          ({ st with transcription := resetTranscriptionState },
           sendTranscriptError st "audio_too_large"
             ("Audio exceeds " ++ toString cfg.maxAudioBytes ++ " byte limit"))) := by
  constructor
  · intro inputs
    exact tsInvariant_runAudioChunks cfg inputs st h
  · intro msg now chunk hrec hen hd hcap
    simp [handleAudioChunk, hen, hrec, hd, hcap]

/-- An `audio.chunk` whose decoded payload would push the total past
the 4-byte cap of `sampleCfg`. -/
def c4ChunkMsg : ClientMsg :=
  { type := "audio.chunk", format := none, sampleRate := none,
    encoding := none, data := some [3, 4, 5], raw := "c" }

/-- Witness for C4 at a concrete input: a 3-byte chunk on top of 2
buffered bytes breaches the 4-byte cap and resets the pipeline. -/
theorem c4_byte_accounting_witness :
    tsInvariant sampleCfg sampleRecordingState.transcription
    ∧ handleAudioChunk sampleCfg sampleRecordingState c4ChunkMsg 9 =
        ({ sampleRecordingState with transcription := resetTranscriptionState },
         sendTranscriptError sampleRecordingState "audio_too_large"
           ("Audio exceeds " ++ toString sampleCfg.maxAudioBytes ++ " byte limit")) :=
  ⟨by decide,
   (c4_byte_accounting sampleCfg sampleRecordingState (by decide)).2
     c4ChunkMsg 9 [3, 4, 5] rfl rfl rfl (by decide)⟩

/-- A trace that forwards nothing to the conversational upstream. -/
def NoUpstream (l : List RelayAction) : Prop :=
  ∀ a ∈ l, a.sendsUpstream = false

/-- The client message types that are fully handled locally by the
relay (transcription control and TTS cancellation). -/
def isLocalClientType (t : String) : Bool :=
  t = "audio.start" || t = "audio.chunk" || t = "audio.end" || t = "tts.stop"

/-- `transcript.error` goes to the client, never upstream. -/
theorem noUpstream_sendTranscriptError (st : SessionState) (c m : String) :
    NoUpstream (sendTranscriptError st c m) := by
  intro a ha
  unfold sendTranscriptError at ha
  split_ifs at ha
  · simp at ha
    subst ha
    rfl
  · simp at ha

/-- `handleAudioStart` never sends to the conversational upstream. -/
theorem noUpstream_handleAudioStart (cfg : RelayConfig) (st : SessionState)
    (msg : ClientMsg) (now : Nat) :
    NoUpstream (handleAudioStart cfg st msg now).2 := by
  unfold handleAudioStart
  split_ifs <;>
    first
      | exact noUpstream_sendTranscriptError _ _ _
      | (intro a ha; simp at ha; subst ha; rfl)
      | (intro a ha; simp at ha)

/-- `handleAudioChunk` never sends to the conversational upstream. -/
theorem noUpstream_handleAudioChunk (cfg : RelayConfig) (st : SessionState)
    (msg : ClientMsg) (now : Nat) :
    NoUpstream (handleAudioChunk cfg st msg now).2 := by
  unfold handleAudioChunk
  cases msg.data <;>
    (dsimp only; split_ifs <;>
      first
        | exact noUpstream_sendTranscriptError _ _ _
        | (intro a ha; simp at ha))

/-- `handleAudioEnd` never sends to the conversational upstream. -/
theorem noUpstream_handleAudioEnd (cfg : RelayConfig) (st : SessionState)
    (now : Nat) :
    NoUpstream (handleAudioEnd cfg st now).2 := by
  unfold handleAudioEnd processTranscription
  split_ifs <;>
    first
      | exact noUpstream_sendTranscriptError _ _ _
      | (intro a ha; simp at ha; subst ha; rfl)

/-- `handleAudioStart` never reads `isReady`. -/
theorem handleAudioStart_isReady (cfg : RelayConfig) (st : SessionState)
    (msg : ClientMsg) (now : Nat) (b : Bool) :
    handleAudioStart cfg { st with isReady := b } msg now =
      ({ (handleAudioStart cfg st msg now).1 with isReady := b },
       (handleAudioStart cfg st msg now).2) := by
  cases st
  unfold handleAudioStart sendTranscriptError
  dsimp only
  split_ifs <;> rfl

/-- `handleAudioChunk` never reads `isReady`. -/
theorem handleAudioChunk_isReady (cfg : RelayConfig) (st : SessionState)
    (msg : ClientMsg) (now : Nat) (b : Bool) :
    handleAudioChunk cfg { st with isReady := b } msg now =
      ({ (handleAudioChunk cfg st msg now).1 with isReady := b },
       (handleAudioChunk cfg st msg now).2) := by
  cases st
  unfold handleAudioChunk sendTranscriptError
  cases msg.data <;> (dsimp only; split_ifs <;> rfl)

/-- `handleAudioEnd` never reads `isReady`. -/
theorem handleAudioEnd_isReady (cfg : RelayConfig) (st : SessionState)
    (now : Nat) (b : Bool) :
    handleAudioEnd cfg { st with isReady := b } now =
      ({ (handleAudioEnd cfg st now).1 with isReady := b },
       (handleAudioEnd cfg st now).2) := by
  cases st
  unfold handleAudioEnd processTranscription sendTranscriptError
  dsimp only
  split_ifs <;> rfl

/-- C2: while `ready` is false, no client message is forwarded to the
conversational upstream; a message that is not a local control type is
dropped outright (state unchanged, nothing queued, no action emitted),
and so is non-JSON data; the four local control types
(`audio.start/chunk/end`, `tts.stop`) are handled identically whatever
the value of the `ready` flag. -/
theorem c2_auth_first_guard (cfg : RelayConfig) (st : SessionState)
    (m : ClientIn) (now : Nat) (h : st.isReady = false) :
    (∀ a ∈ (clientMessageStep cfg st m now).2, a.sendsUpstream = false)
    ∧ (∀ msg, m = .parsed msg → isLocalClientType msg.type = false →
        clientMessageStep cfg st m now = (st, []))
    ∧ (∀ raw, m = .unparseable raw → clientMessageStep cfg st m now = (st, []))
    ∧ (∀ msg, m = .parsed msg → isLocalClientType msg.type = true → ∀ b : Bool,
        clientMessageStep cfg { st with isReady := b } m now =
          ({ (clientMessageStep cfg st m now).1 with isReady := b },
           (clientMessageStep cfg st m now).2)) := by
  refine ⟨?_, ?_, ?_, ?_⟩
  · cases m with
    | parsed msg =>
        simp only [clientMessageStep]
        split_ifs <;>
          first
            | exact noUpstream_handleAudioStart cfg st msg now
            | exact noUpstream_handleAudioChunk cfg st msg now
            | exact noUpstream_handleAudioEnd cfg st now
            | (intro a ha; simp at ha; rcases ha with ha | ha <;> subst ha <;> rfl)
            | (intro a ha; simp at ha; done)
            | simp_all
    | unparseable raw =>
        simp [clientMessageStep, h]
  · intro msg hm hlocal
    subst hm
    simp only [isLocalClientType, Bool.or_eq_false_iff, decide_eq_false_iff_not] at hlocal
    obtain ⟨⟨⟨n1, n2⟩, n3⟩, n4⟩ := hlocal
    simp [clientMessageStep, n1, n2, n3, n4, h]
  · intro raw hm
    subst hm
    simp [clientMessageStep, h]
  · intro msg hm hlocal b
    subst hm
    simp only [isLocalClientType, Bool.or_eq_true, decide_eq_true_eq] at hlocal
    rcases hlocal with ((ht | ht) | ht) | ht
    · simp only [clientMessageStep, ht, String.reduceEq, reduceIte]
      exact handleAudioStart_isReady cfg st msg now b
    · simp only [clientMessageStep, ht, String.reduceEq, reduceIte]
      exact handleAudioChunk_isReady cfg st msg now b
    · simp only [clientMessageStep, ht, String.reduceEq, reduceIte]
      exact handleAudioEnd_isReady cfg st now b
    · simp only [clientMessageStep, ht, String.reduceEq, reduceIte]
      cases st
      dsimp only
      split_ifs <;> rfl

/-- Witness for C2 at a concrete input: a `response.create` sent by the
client before the upstream session exists is dropped entirely. -/
theorem c2_auth_first_guard_witness :
    clientMessageStep sampleCfg initialSessionState
        (.parsed { type := "response.create", format := none, sampleRate := none,
                   encoding := none, data := none, raw := "rc" }) 2 =
      (initialSessionState, []) :=
  (c2_auth_first_guard sampleCfg initialSessionState
      (.parsed { type := "response.create", format := none, sampleRate := none,
                 encoding := none, data := none, raw := "rc" }) 2 rfl).2.1
    { type := "response.create", format := none, sampleRate := none,
      encoding := none, data := none, raw := "rc" } rfl rfl

/-- The acts of the `session.created/updated/error` chain contain the
one-time configuration only in the `session.created` branch. -/
theorem noSU_sessionEventsStage (st : SessionState) (m : OpenAIMsg)
    (ht : ¬ m.type = "session.created") :
    RelayAction.sendOpenai .sessionUpdate ∉ (sessionEventsStage st m).2 := by
  unfold sessionEventsStage
  split_ifs <;> simp_all

/-- The speech-stopped stage only ever adds `response.create`. -/
theorem noSU_speechStoppedStage (m : OpenAIMsg) (now : Hrtime)
    (p : SessionState × List RelayAction)
    (h : RelayAction.sendOpenai .sessionUpdate ∉ p.2) :
    RelayAction.sendOpenai .sessionUpdate ∉ (speechStoppedStage m now p).2 := by
  unfold speechStoppedStage
  dsimp only
  split_ifs <;> simp_all

/-- The `response.done` stage leaves the trace unchanged. -/
theorem responseDoneStage_acts (m : OpenAIMsg) (p : SessionState × List RelayAction) :
    (responseDoneStage m p).2 = p.2 := by
  unfold responseDoneStage
  split_ifs <;> rfl

/-- The text-delta stage only adds synthesis text and a client delta. -/
theorem noSU_textDeltaStage (m : OpenAIMsg) (now : Hrtime)
    (p : SessionState × List RelayAction)
    (h : RelayAction.sendOpenai .sessionUpdate ∉ p.2) :
    RelayAction.sendOpenai .sessionUpdate ∉ (textDeltaStage m now p).2 := by
  unfold textDeltaStage sendTextToElevenLabs
  dsimp only
  split_ifs <;> simp_all

/-- The tail stage only adds the synthesis flush marker and the
client-bound verbatim forward. -/
theorem noSU_tailForwardStage (m : OpenAIMsg)
    (p : SessionState × List RelayAction)
    (h : RelayAction.sendOpenai .sessionUpdate ∉ p.2) :
    RelayAction.sendOpenai .sessionUpdate ∉ (tailForwardStage m p).2 := by
  unfold tailForwardStage flushElevenLabs
  dsimp only
  split_ifs <;> simp_all

/-- The one-time `session.update` configuration is emitted only while
processing a `session.created` message. -/
theorem sessionUpdate_only_on_created (st : SessionState) (m : OpenAIMsg)
    (now : Hrtime)
    (hmem : RelayAction.sendOpenai .sessionUpdate ∈ (openaiMessageStep st m now).2) :
    m.type = "session.created" := by
  by_cases ht : m.type = "session.created"
  · exact ht
  · exfalso
    have base := noSU_sessionEventsStage st m ht
    have s2 := noSU_speechStoppedStage m now (sessionEventsStage st m) base
    have s3 : RelayAction.sendOpenai .sessionUpdate ∉
        (responseDoneStage m (speechStoppedStage m now (sessionEventsStage st m))).2 := by
      rw [responseDoneStage_acts]
      exact s2
    unfold openaiMessageStep at hmem
    by_cases htd : isTextDeltaType m.type = true
    · rw [if_pos htd] at hmem
      exact noSU_textDeltaStage _ _ _ s3 hmem
    · rw [if_neg htd] at hmem
      exact noSU_tailForwardStage _ _ s3 hmem

/-- C8: processing the upstream `session.created` message sets
`ready = true` and emits, in this order: the ready assignment, the
sanitized acknowledgment (session id only) to the client, the one-time
`session.update` configuration to the conversational upstream, the
ElevenLabs connection, and the verbatim forward; the configuration is
never emitted while processing any other message; and the socket-open
handler emits nothing at all. -/
theorem c8_create_then_configure (st : SessionState) (m : OpenAIMsg) (now : Hrtime) :
    (m.type = "session.created" → st.clientOpen = true →
      openaiMessageStep st m now =
        ({ st with isReady := true },
         [RelayAction.assignReady true,
          RelayAction.sendClient (.sessionCreatedAck (jsOrStr m.sessionId "unknown")),
          RelayAction.sendOpenai .sessionUpdate,
          RelayAction.connectEleven,
          RelayAction.sendClient (.raw m.raw)]))
    ∧ (RelayAction.sendOpenai .sessionUpdate ∈ (openaiMessageStep st m now).2 →
        m.type = "session.created")
    ∧ (openaiOpenStep st).2 = [] := by
  refine ⟨?_, sessionUpdate_only_on_created st m now, rfl⟩
  intro ht hopen
  unfold openaiMessageStep sessionEventsStage speechStoppedStage responseDoneStage
    tailForwardStage flushElevenLabs
  simp [ht, hopen, isTextDeltaType, isDoneType]

/-- Witness for C8 at a concrete input. -/
theorem c8_create_then_configure_witness :
    openaiMessageStep initialSessionState
        { type := "session.created", sessionId := some "sess-1", delta := none,
          text := none, responseId := none, raw := "sc" } (1, 0) =
      ({ initialSessionState with isReady := true },
       [RelayAction.assignReady true,
        RelayAction.sendClient (.sessionCreatedAck "sess-1"),
        RelayAction.sendOpenai .sessionUpdate,
        RelayAction.connectEleven,
        RelayAction.sendClient (.raw "sc")]) :=
  (c8_create_then_configure initialSessionState
      { type := "session.created", sessionId := some "sess-1", delta := none,
        text := none, responseId := none, raw := "sc" } (1, 0)).1 rfl rfl

/-- `countResponseCreate` distributes over concatenation. -/
theorem countRC_append (a b : List RelayAction) :
    countResponseCreate (a ++ b) = countResponseCreate a + countResponseCreate b := by
  simp [countResponseCreate, List.filter_append]

/-- The `session.created/updated/error` chain never emits a
turn-creation request. -/
theorem countRC_sessionEventsStage (st : SessionState) (m : OpenAIMsg) :
    countResponseCreate (sessionEventsStage st m).2 = 0 := by
  unfold sessionEventsStage
  split_ifs <;> simp [countResponseCreate, RelayAction.isResponseCreate]

/-- The `session.created/updated/error` chain does not touch the
pending flag. -/
theorem pending_sessionEventsStage (st : SessionState) (m : OpenAIMsg) :
    (sessionEventsStage st m).1.isResponsePending = st.isResponsePending := by
  unfold sessionEventsStage
  split_ifs <;> rfl

/-- The speech-stopped stage emits exactly one turn-creation request,
and only when a speech-stopped event arrives with no response pending. -/
theorem countRC_speechStoppedStage (m : OpenAIMsg) (now : Hrtime)
    (p : SessionState × List RelayAction) :
    countResponseCreate (speechStoppedStage m now p).2 =
      countResponseCreate p.2 +
        (if p.1.isResponsePending = false ∧
            m.type = "input_audio_buffer.speech_stopped" then 1 else 0) := by
  unfold speechStoppedStage
  dsimp only
  split_ifs <;>
    simp_all [countRC_append, countResponseCreate, RelayAction.isResponseCreate]

/-- Pending flag after the speech-stopped stage. -/
theorem pending_speechStoppedStage (m : OpenAIMsg) (now : Hrtime)
    (p : SessionState × List RelayAction) :
    (speechStoppedStage m now p).1.isResponsePending =
      (p.1.isResponsePending ||
        decide (m.type = "input_audio_buffer.speech_stopped")) := by
  unfold speechStoppedStage
  dsimp only
  split_ifs <;> simp_all

/-- The text-delta stage does not touch the pending flag. -/
theorem pending_textDeltaStage (m : OpenAIMsg) (now : Hrtime)
    (p : SessionState × List RelayAction) :
    (textDeltaStage m now p).1.isResponsePending = p.1.isResponsePending := by
  unfold textDeltaStage sendTextToElevenLabs
  dsimp only
  split_ifs <;> rfl

/-- The tail stage does not change the state at all. -/
theorem tailForwardStage_state (m : OpenAIMsg)
    (p : SessionState × List RelayAction) :
    (tailForwardStage m p).1 = p.1 := by
  unfold tailForwardStage
  dsimp only
  split_ifs <;> rfl

/-- The text-delta stage never emits a turn-creation request. -/
theorem countRC_textDeltaStage (m : OpenAIMsg) (now : Hrtime)
    (p : SessionState × List RelayAction) :
    countResponseCreate (textDeltaStage m now p).2 = countResponseCreate p.2 := by
  unfold textDeltaStage sendTextToElevenLabs
  dsimp only
  split_ifs <;>
    simp [countRC_append, countResponseCreate, RelayAction.isResponseCreate]

/-- The tail stage never emits a turn-creation request. -/
theorem countRC_tailForwardStage (m : OpenAIMsg)
    (p : SessionState × List RelayAction) :
    countResponseCreate (tailForwardStage m p).2 = countResponseCreate p.2 := by
  unfold tailForwardStage flushElevenLabs
  dsimp only
  split_ifs <;>
    simp [countRC_append, countResponseCreate, RelayAction.isResponseCreate]

/-- Pending flag after one upstream message that is not
`response.done`: it is set by a speech-stopped event and otherwise
unchanged. -/
theorem openaiMessageStep_pending (st : SessionState) (m : OpenAIMsg)
    (now : Hrtime) (hnd : m.type ≠ "response.done") :
    (openaiMessageStep st m now).1.isResponsePending =
      (st.isResponsePending ||
        decide (m.type = "input_audio_buffer.speech_stopped")) := by
  unfold openaiMessageStep
  have hp3 : (responseDoneStage m
        (speechStoppedStage m now (sessionEventsStage st m))).1 =
      (speechStoppedStage m now (sessionEventsStage st m)).1 := by
    unfold responseDoneStage
    rw [if_neg hnd]
  by_cases htd : isTextDeltaType m.type = true
  · rw [if_pos htd, pending_textDeltaStage, hp3, pending_speechStoppedStage,
      pending_sessionEventsStage]
  · rw [if_neg htd, tailForwardStage_state, hp3, pending_speechStoppedStage,
      pending_sessionEventsStage]

/-- Turn-creation requests emitted by one upstream message: exactly one
when a speech-stopped event arrives with no response pending, zero
otherwise. -/
theorem openaiMessageStep_countRC (st : SessionState) (m : OpenAIMsg)
    (now : Hrtime) :
    countResponseCreate (openaiMessageStep st m now).2 =
      (if st.isResponsePending = false ∧
          m.type = "input_audio_buffer.speech_stopped" then 1 else 0) := by
  unfold openaiMessageStep
  have hacts : (responseDoneStage m
        (speechStoppedStage m now (sessionEventsStage st m))).2 =
      (speechStoppedStage m now (sessionEventsStage st m)).2 :=
    responseDoneStage_acts m _
  by_cases htd : isTextDeltaType m.type = true
  · rw [if_pos htd, countRC_textDeltaStage, hacts, countRC_speechStoppedStage,
      countRC_sessionEventsStage, pending_sessionEventsStage]
    simp
  · rw [if_neg htd, countRC_tailForwardStage, hacts, countRC_speechStoppedStage,
      countRC_sessionEventsStage, pending_sessionEventsStage]
    simp

/-- While a response is pending and no `response.done` arrives, no
further turn-creation request is emitted and the flag stays set. -/
theorem runOpenai_pending_true :
    ∀ (msgs : List (OpenAIMsg × Hrtime)) (st : SessionState),
      st.isResponsePending = true →
      (∀ p ∈ msgs, (p : OpenAIMsg × Hrtime).1.type ≠ "response.done") →
      countResponseCreate (runOpenai st msgs).2 = 0 ∧
        (runOpenai st msgs).1.isResponsePending = true := by
  intro msgs
  induction msgs with
  | nil =>
      intro st hp _
      exact ⟨rfl, hp⟩
  | cons head rest ih =>
      obtain ⟨m, t⟩ := head
      intro st hp hnd
      have hnd0 : m.type ≠ "response.done" := hnd (m, t) (List.mem_cons_self _ _)
      have hpend := openaiMessageStep_pending st m t hnd0
      rw [hp, Bool.true_or] at hpend
      have hcount := openaiMessageStep_countRC st m t
      rw [hp] at hcount
      simp only [Bool.true_eq_false, false_and, if_false] at hcount
      have ihh := ih (openaiMessageStep st m t).1 hpend
        (fun p hpmem => hnd p (List.mem_cons_of_mem _ hpmem))
      constructor
      · show countResponseCreate
            ((openaiMessageStep st m t).2 ++
              (runOpenai (openaiMessageStep st m t).1 rest).2) = 0
        rw [countRC_append, hcount, ihh.1]
      · exact ihh.2

/-- From a non-pending state, a `response.done`-free event sequence
produces exactly one turn-creation request when it contains at least
one speech-stopped event, and none otherwise. -/
theorem runOpenai_pending_false :
    ∀ (msgs : List (OpenAIMsg × Hrtime)) (st : SessionState),
      st.isResponsePending = false →
      (∀ p ∈ msgs, (p : OpenAIMsg × Hrtime).1.type ≠ "response.done") →
      countResponseCreate (runOpenai st msgs).2 =
        (if ∃ p ∈ msgs,
            (p : OpenAIMsg × Hrtime).1.type = "input_audio_buffer.speech_stopped"
         then 1 else 0) := by
  intro msgs
  induction msgs with
  | nil =>
      intro st _ _
      simp [runOpenai, countResponseCreate]
  | cons head rest ih =>
      obtain ⟨m, t⟩ := head
      intro st hp hnd
      have hnd0 : m.type ≠ "response.done" := hnd (m, t) (List.mem_cons_self _ _)
      have hpend := openaiMessageStep_pending st m t hnd0
      rw [hp, Bool.false_or] at hpend
      have hcount := openaiMessageStep_countRC st m t
      have hshow : countResponseCreate (runOpenai st ((m, t) :: rest)).2 =
          countResponseCreate (openaiMessageStep st m t).2 +
            countResponseCreate (runOpenai (openaiMessageStep st m t).1 rest).2 := by
        show countResponseCreate
            ((openaiMessageStep st m t).2 ++
              (runOpenai (openaiMessageStep st m t).1 rest).2) = _
        rw [countRC_append]
      by_cases hss : m.type = "input_audio_buffer.speech_stopped"
      · have hpend1 : (openaiMessageStep st m t).1.isResponsePending = true := by
          rw [hpend, hss]
          simp
        have hrest := runOpenai_pending_true rest (openaiMessageStep st m t).1
          hpend1 (fun p hpmem => hnd p (List.mem_cons_of_mem _ hpmem))
        rw [hshow, hrest.1, hcount, hp, hss]
        simp [hss]
      · have hpend0 : (openaiMessageStep st m t).1.isResponsePending = false := by
          rw [hpend]
          simp [hss]
        have hrest := ih (openaiMessageStep st m t).1 hpend0
          (fun p hpmem => hnd p (List.mem_cons_of_mem _ hpmem))
        rw [hshow, hrest, hcount, hp]
        have hiff : (∃ p ∈ (m, t) :: rest,
            (p : OpenAIMsg × Hrtime).1.type = "input_audio_buffer.speech_stopped") ↔
            ∃ p ∈ rest,
              (p : OpenAIMsg × Hrtime).1.type = "input_audio_buffer.speech_stopped" := by
          constructor
          · rintro ⟨p, hpmem, hpt⟩
            rcases List.mem_cons.mp hpmem with rfl | hmm
            · exact absurd hpt hss
            · exact ⟨p, hmm, hpt⟩
          · rintro ⟨p, hpmem, hpt⟩
            exact ⟨p, List.mem_cons_of_mem _ hpmem, hpt⟩
        rw [if_congr hiff rfl rfl]
        simp [hss]

/-- C3: from a session with no response pending, any upstream event
sequence with no intervening `response.done` — in particular two
consecutive speech-stopped events — makes the relay emit exactly one
turn-creation request (one iff the sequence contains a speech-stopped
event); the pending flag is set by the first trigger and can be cleared
by nothing but a `response.done` message. -/
theorem c3_response_pending_dedup (st : SessionState)
    (msgs : List (OpenAIMsg × Hrtime)) (hp : st.isResponsePending = false)
    (hnd : ∀ p ∈ msgs, (p : OpenAIMsg × Hrtime).1.type ≠ "response.done") :
    countResponseCreate (runOpenai st msgs).2 =
      (if ∃ p ∈ msgs,
          (p : OpenAIMsg × Hrtime).1.type = "input_audio_buffer.speech_stopped"
       then 1 else 0)
    ∧ (∀ (st' : SessionState) (m : OpenAIMsg) (now : Hrtime),
        st'.isResponsePending = false →
        m.type = "input_audio_buffer.speech_stopped" →
        (openaiMessageStep st' m now).1.isResponsePending = true)
    ∧ (∀ (st' : SessionState) (m : OpenAIMsg) (now : Hrtime),
        st'.isResponsePending = true →
        (openaiMessageStep st' m now).1.isResponsePending = false →
        m.type = "response.done") := by
  refine ⟨runOpenai_pending_false msgs st hp hnd, ?_, ?_⟩
  · intro st' m now hp' hss
    rw [openaiMessageStep_pending st' m now (by rw [hss]; decide), hss]
    simp
  · intro st' m now hp' hreset
    by_contra hne
    rw [openaiMessageStep_pending st' m now hne, hp', Bool.true_or] at hreset
    exact Bool.noConfusion hreset

/-- Witness for C3 at a concrete input: two consecutive speech-stopped
events with no intervening `response.done` yield exactly one
`response.create`. -/
theorem c3_response_pending_dedup_witness :
    countResponseCreate
        (runOpenai initialSessionState
          [(c7SpeechStoppedMsg, (0, 0)), (c7SpeechStoppedMsg, (2, 0))]).2 = 1 := by
  have h := (c3_response_pending_dedup initialSessionState
    [(c7SpeechStoppedMsg, (0, 0)), (c7SpeechStoppedMsg, (2, 0))] rfl
    (by intro p hp; fin_cases hp <;> decide)).1
  rw [h]
  simp [c7SpeechStoppedMsg]
